import Mathlib

/-!
Shallow embedding of the `ministr` crate (string utilities):

* `src/hash.rs` — the FNV-1a string hashes `str_hash_fnv1a` (32-bit) and
  `str_hash_fnv1a_64` (64-bit);
* `src/non_empty_str.rs` — `NonEmptyStr`, a non-empty borrowed string slice;
* `src/non_empty_string.rs` — `NonEmptyString`, a non-empty owned string.

A Rust `&str` / `String` is a sequence of UTF-8 bytes; emptiness, byte
length, equality and ordering are all defined on that byte sequence, and the
hashes iterate over `s.as_bytes()`.  We therefore model a Rust string value
as its byte sequence, a `List Nat`.  Machine integers (`u32`, `u64`) are
modelled as `Nat` with explicit reduction `% 2 ^ 32` / `% 2 ^ 64` at the
`wrapping_mul`, the only operation in the sources that can overflow
(`xor` of values below the modulus stays below the modulus).
-/

/-- A Rust string value (`&str` or `String`), modelled as its UTF-8 byte
sequence. -/
abbrev RStr := List Nat

/-- Bytes of the literal `"foo"` (UTF-8: `f` = 102, `o` = 111). -/
def fooBytes : RStr := [102, 111, 111]

namespace Hash

/-- `FNV1A32_PRIME` from `str_hash_fnv1a` in `src/hash.rs`. -/
def FNV1A32_PRIME : Nat := 0x01000193

/-- `FNV1A32_SEED` from `str_hash_fnv1a` in `src/hash.rs`. -/
def FNV1A32_SEED : Nat := 0x811c9dc5

/-- `FNV1A64_PRIME` from `str_hash_fnv1a_64` in `src/hash.rs`. -/
def FNV1A64_PRIME : Nat := 0x00000100000001B3

/-- `FNV1A64_SEED` from `str_hash_fnv1a_64` in `src/hash.rs`. -/
def FNV1A64_SEED : Nat := 0xcbf29ce484222325

/-- The loop of `str_hash_fnv1a`
(`for byte in s.as_bytes() ... hash = (hash ^ *byte as u32).wrapping_mul(FNV1A32_PRIME)`):
`hash` is the mutable accumulator, the list is the remaining bytes. -/
def fnv1a32_loop : Nat → RStr → Nat
  | hash, [] => hash
  | hash, b :: rest => fnv1a32_loop (((hash ^^^ b) * FNV1A32_PRIME) % 2 ^ 32) rest

/-- `str_hash_fnv1a` from `src/hash.rs`: FNV-1a, 32-bit. -/
def str_hash_fnv1a (s : RStr) : Nat := fnv1a32_loop FNV1A32_SEED s

/-- The loop of `str_hash_fnv1a_64`, 64-bit accumulator. -/
def fnv1a64_loop : Nat → RStr → Nat
  | hash, [] => hash
  | hash, b :: rest => fnv1a64_loop (((hash ^^^ b) * FNV1A64_PRIME) % 2 ^ 64) rest

/-- `str_hash_fnv1a_64` from `src/hash.rs`: FNV-1a, 64-bit. -/
def str_hash_fnv1a_64 (s : RStr) : Nat := fnv1a64_loop FNV1A64_SEED s

/-- The per-byte FNV-1a update as the spec words it (claim C4):
`hash = (hash XOR byte) * 0x01000193 mod 2^32`. -/
def fnv1a32SpecStep (hash byte : Nat) : Nat := ((hash ^^^ byte) * 0x01000193) % 2 ^ 32

/-- The per-byte FNV-1a update as the spec words it (claim C5):
`hash = (hash XOR byte) * 0x00000100000001B3 mod 2^64`. -/
def fnv1a64SpecStep (hash byte : Nat) : Nat := ((hash ^^^ byte) * 0x00000100000001B3) % 2 ^ 64

theorem fnv1a32_loop_eq_foldl (h : Nat) (s : RStr) :
    fnv1a32_loop h s = s.foldl fnv1a32SpecStep h := by
  induction s generalizing h with
  | nil => rfl
  | cons b rest ih => simp [fnv1a32_loop, List.foldl, ih, fnv1a32SpecStep, FNV1A32_PRIME]

theorem fnv1a64_loop_eq_foldl (h : Nat) (s : RStr) :
    fnv1a64_loop h s = s.foldl fnv1a64SpecStep h := by
  induction s generalizing h with
  | nil => rfl
  | cons b rest ih => simp [fnv1a64_loop, List.foldl, ih, fnv1a64SpecStep, FNV1A64_PRIME]

theorem fnv1a32_loop_append (h : Nat) (s t : RStr) :
    fnv1a32_loop h (s ++ t) = fnv1a32_loop (fnv1a32_loop h s) t := by
  induction s generalizing h with
  | nil => rfl
  | cons b rest ih => simp [fnv1a32_loop, ih]

theorem fnv1a64_loop_append (h : Nat) (s t : RStr) :
    fnv1a64_loop h (s ++ t) = fnv1a64_loop (fnv1a64_loop h s) t := by
  induction s generalizing h with
  | nil => rfl
  | cons b rest ih => simp [fnv1a64_loop, ih]

end Hash

/-- `NonEmptyStr` from `src/non_empty_str.rs`:
`#[repr(transparent)] pub struct NonEmptyStr(str)` — a transparent wrapper
around a string slice.  `toRStr` is the wrapped (tuple field `0`) slice. -/
structure NonEmptyStr where
  toRStr : RStr
deriving DecidableEq

/-- `NonEmptyString` from `src/non_empty_string.rs`:
`#[repr(transparent)] pub struct NonEmptyString(String)` — a wrapper around
an owned string.  `toRStr` is the wrapped (tuple field `0`) string. -/
structure NonEmptyString where
  toRStr : RStr
deriving DecidableEq

namespace NonEmptyStr

/-- `NonEmptyStr::new_unchecked`, release semantics: the pointer cast
`&*(s as *const str as *const _)` — wraps the slice unchanged.  (The
debug-only assertion is modelled separately by `new_unchecked_dbg`.) -/
def new_unchecked (s : RStr) : NonEmptyStr := ⟨s⟩

/-- `NonEmptyStr::new_unchecked`, debug-build semantics: the
`debug_assert!(!s.is_empty(), ...)` panics with the given message on an
empty slice, otherwise the wrap proceeds as in release. -/
def new_unchecked_dbg (s : RStr) : Except String NonEmptyStr :=
  if s.isEmpty then
    Except.error "tried to create a non-empty string slice from an empty string"
  else Except.ok (new_unchecked s)

/-- `NonEmptyStr::new`: `if s.is_empty() { None } else { Some(unsafe { Self::new_unchecked(s) }) }`. -/
def new (s : RStr) : Option NonEmptyStr :=
  if s.isEmpty then none else some (new_unchecked s)

/-- `NonEmptyStr::as_str`: returns the wrapped slice (`&self.0`). -/
def as_str (v : NonEmptyStr) : RStr := v.toRStr

end NonEmptyStr

/-- `NonZeroUsize::new` from the standard library: `Some(n)` when `n != 0`,
`None` when `n == 0`; the payload carries the non-zero proof the Rust type
`NonZeroUsize` represents. -/
def NonZeroUsize.new (n : Nat) : Option { m : Nat // 0 < m } :=
  if h : 0 < n then some ⟨n, h⟩ else none

/-- `NonEmptyStr::len_nonzero` before the `unwrap_unchecked_dbg_msg`:
`NonZeroUsize::new(self.0.len())`.  The source then unwraps this
unchecked; `none` here is exactly the failure branch that unwrap would
take. -/
def NonEmptyStr.len_nonzero_checked (v : NonEmptyStr) : Option { m : Nat // 0 < m } :=
  NonZeroUsize.new v.toRStr.length

namespace NonEmptyString

/-- `NonEmptyString::new_unchecked`, release semantics: `Self(s)`. -/
def new_unchecked (s : RStr) : NonEmptyString := ⟨s⟩

/-- `NonEmptyString::new_unchecked`, debug-build semantics: the
`debug_assert!(!s.is_empty(), ...)` panics with the given message on an
empty string, otherwise `Self(s)`. -/
def new_unchecked_dbg (s : RStr) : Except String NonEmptyString :=
  if s.isEmpty then
    Except.error "tried to create a non-empty string from an empty string"
  else Except.ok (new_unchecked s)

/-- `NonEmptyString::new`: `if s.is_empty() { None } else { Some(Self(s)) }`. -/
def new (s : RStr) : Option NonEmptyString :=
  if s.isEmpty then none else some ⟨s⟩

/-- `NonEmptyString::as_str`: `self.0.as_str()` — the owned string's bytes. -/
def as_str (x : NonEmptyString) : RStr := x.toRStr

/-- `NonEmptyString::as_ne_str`: `unsafe { NonEmptyStr::new_unchecked(&self.0) }`. -/
def as_ne_str (x : NonEmptyString) : NonEmptyStr := NonEmptyStr.new_unchecked x.toRStr

/-- `NonEmptyString::from(s: &NonEmptyStr)`:
`unsafe { NonEmptyString::new_unchecked(s.as_str().to_owned()) }`
(`from` is a Lean keyword, hence the name `from_ne_str`). -/
def from_ne_str (v : NonEmptyStr) : NonEmptyString := new_unchecked v.as_str

/-- `NonEmptyString::len_nonzero` before the `unwrap_unchecked_dbg_msg`:
`NonZeroUsize::new(self.0.len())`. -/
def len_nonzero_checked (x : NonEmptyString) : Option { m : Nat // 0 < m } :=
  NonZeroUsize.new x.toRStr.length

/-- The derived `Clone` for `NonEmptyString`: clones the wrapped `String`,
producing an equal, independently owned value. -/
def clone (x : NonEmptyString) : NonEmptyString := ⟨x.toRStr⟩

end NonEmptyString

/-- `ToOwned for NonEmptyStr` (`fn to_owned(&self) -> NonEmptyString { self.into() }`),
which goes through `From<&NonEmptyStr> for NonEmptyString`, i.e.
`NonEmptyString::from`. -/
def NonEmptyStr.to_owned (v : NonEmptyStr) : NonEmptyString := NonEmptyString.from_ne_str v

/-!
Comparisons (`src/non_empty_str.rs` and `src/non_empty_string.rs`).

Rust's `PartialEq`/`Ord` for `str` and `String` compare the UTF-8 byte
sequences: equality is byte equality and ordering is lexicographic byte
ordering.  In the byte-list model these are `==` on `List Nat` and the
`str_cmp` below.  Every `impl PartialEq<B> for A` of the sources is one
function here; the by-reference impls (`&NonEmptyStr`, `&&str`, `&String`,
...) all delegate to the by-value ones by dereferencing, so references
having no counterpart in the model, they collapse onto the same functions.
-/

/-- Rust's `Ord for str`: lexicographic byte comparison. -/
def str_cmp : RStr → RStr → Ordering
  | [], [] => Ordering.eq
  | [], _ :: _ => Ordering.lt
  | _ :: _, [] => Ordering.gt
  | a :: as_, b :: bs => if a < b then Ordering.lt else if b < a then Ordering.gt else str_cmp as_ bs

/-- Derived `PartialEq`/`Eq` for `NonEmptyStr`: equality of the single
wrapped `str` field. -/
def NonEmptyStr.eq (a b : NonEmptyStr) : Bool := a.toRStr == b.toRStr

/-- Derived `PartialOrd`/`Ord` for `NonEmptyStr`: comparison of the single
wrapped `str` field. -/
def NonEmptyStr.cmp (a b : NonEmptyStr) : Ordering := str_cmp a.toRStr b.toRStr

/-- `impl PartialEq<str> for NonEmptyStr` (also the `&str`/`&NonEmptyStr`
variants): `PartialEq::eq(self.as_str(), other)`. -/
def NonEmptyStr.eq_str (a : NonEmptyStr) (s : RStr) : Bool := a.as_str == s

/-- `impl PartialEq<NonEmptyStr> for str` (also the reference variants):
`PartialEq::eq(self, other.as_str())`. -/
def str_eq_ne_str (s : RStr) (a : NonEmptyStr) : Bool := s == a.as_str

/-- `impl PartialEq<String> for NonEmptyStr` (also the reference variants):
`PartialEq::eq(self.as_str(), other.as_str())`. -/
def NonEmptyStr.eq_string (a : NonEmptyStr) (s : RStr) : Bool := a.as_str == s

/-- `impl PartialEq<NonEmptyStr> for String` (also the reference variants):
`PartialEq::eq(self.as_str(), other.as_str())`. -/
def string_eq_ne_str (s : RStr) (a : NonEmptyStr) : Bool := s == a.as_str

/-- `impl PartialEq<NonEmptyString> for NonEmptyStr` (also the reference
variants): `PartialEq::eq(self, other.as_ne_str())`. -/
def NonEmptyStr.eq_ne_string (a : NonEmptyStr) (x : NonEmptyString) : Bool :=
  NonEmptyStr.eq a x.as_ne_str

/-- Derived `PartialEq`/`Eq` for `NonEmptyString`: equality of the single
wrapped `String` field. -/
def NonEmptyString.eq (x y : NonEmptyString) : Bool := x.toRStr == y.toRStr

/-- Derived `PartialOrd`/`Ord` for `NonEmptyString`: comparison of the
single wrapped `String` field. -/
def NonEmptyString.cmp (x y : NonEmptyString) : Ordering := str_cmp x.toRStr y.toRStr

/-- `impl PartialEq<str> for NonEmptyString` (also the reference variants):
`PartialEq::eq(self.as_str(), other)`. -/
def NonEmptyString.eq_str (x : NonEmptyString) (s : RStr) : Bool := x.as_str == s

/-- `impl PartialEq<NonEmptyString> for str` (also the reference variants):
`PartialEq::eq(self, other.as_str())`. -/
def str_eq_ne_string (s : RStr) (x : NonEmptyString) : Bool := s == x.as_str

/-- `impl PartialEq<String> for NonEmptyString` (also the reference
variants): `PartialEq::eq(self.as_str(), other.as_str())`. -/
def NonEmptyString.eq_string (x : NonEmptyString) (s : RStr) : Bool := x.as_str == s

/-- `impl PartialEq<NonEmptyString> for String` (also the reference
variants): `PartialEq::eq(self.as_str(), other.as_str())`. -/
def string_eq_ne_string (s : RStr) (x : NonEmptyString) : Bool := s == x.as_str

/-- `impl PartialEq<NonEmptyStr> for NonEmptyString` (also the reference
variants): `PartialEq::eq(self.as_ne_str(), other)`. -/
def NonEmptyString.eq_ne_str (x : NonEmptyString) (a : NonEmptyStr) : Bool :=
  NonEmptyStr.eq x.as_ne_str a

/-- The values of the two wrapper types reachable through the safe public
API.  The safe producers of a `NonEmptyStr` are the validating constructor
`NonEmptyStr::new` (the `TryFrom<&str>`/`TryFrom<&String>` impls delegate to
it) and borrowing from an owned value (`NonEmptyString::as_ne_str`, also
reached via `Deref`, `AsRef`, `Borrow` and `From<&NonEmptyString>`).  The
safe producers of a `NonEmptyString` are `NonEmptyString::new` (the
`TryFrom` impls delegate to it), copying a borrowed view
(`NonEmptyString::from`, also reached via `From<&NonEmptyStr>` and
`NonEmptyStr::to_owned`), and the derived `Clone`.  The `unsafe` unchecked
constructors are not part of the safe API. -/
inductive SafeReachable : NonEmptyStr ⊕ NonEmptyString → Prop
  | str_new (s : RStr) (v : NonEmptyStr) : NonEmptyStr.new s = some v →
      SafeReachable (Sum.inl v)
  | string_new (s : RStr) (x : NonEmptyString) : NonEmptyString.new s = some x →
      SafeReachable (Sum.inr x)
  | as_ne_str (x : NonEmptyString) : SafeReachable (Sum.inr x) →
      SafeReachable (Sum.inl x.as_ne_str)
  | from_ne_str (v : NonEmptyStr) : SafeReachable (Sum.inl v) →
      SafeReachable (Sum.inr (NonEmptyString.from_ne_str v))
  | to_owned (v : NonEmptyStr) : SafeReachable (Sum.inl v) →
      SafeReachable (Sum.inr v.to_owned)
  | clone (x : NonEmptyString) : SafeReachable (Sum.inr x) →
      SafeReachable (Sum.inr x.clone)

/-- The underlying text of either wrapper. -/
def underlyingText : NonEmptyStr ⊕ NonEmptyString → RStr
  | Sum.inl v => v.as_str
  | Sum.inr x => x.as_str

/-! ## Claim theorems -/

/-- C1: for every non-empty string `t`, `NonEmptyStr::new(t)` returns `Some`
and `as_str` on the result returns `t`; likewise `NonEmptyString::new` on a
non-empty owned string. -/
theorem C1_new_succeeds_roundtrip (t : RStr) (h : t ≠ []) :
    (∃ v : NonEmptyStr, NonEmptyStr.new t = some v ∧ v.as_str = t) ∧
    (∃ x : NonEmptyString, NonEmptyString.new t = some x ∧ x.as_str = t) := by
  have h' : t.isEmpty = false := by
    cases t with
    | nil => exact absurd rfl h
    | cons b rest => rfl
  exact ⟨⟨⟨t⟩, by simp [NonEmptyStr.new, h', NonEmptyStr.new_unchecked], rfl⟩,
         ⟨⟨t⟩, by simp [NonEmptyString.new, h'], rfl⟩⟩

theorem C1_witness :
    fooBytes ≠ [] ∧
    ((∃ v : NonEmptyStr, NonEmptyStr.new fooBytes = some v ∧ v.as_str = fooBytes) ∧
     (∃ x : NonEmptyString, NonEmptyString.new fooBytes = some x ∧ x.as_str = fooBytes)) :=
  ⟨by decide, C1_new_succeeds_roundtrip fooBytes (by decide)⟩

/-- C2: both validating constructors return `None` on the empty input (and
being total functions into `Option`, they panic on nothing); they fail
exactly when the input is empty. -/
theorem C2_new_empty_none :
    NonEmptyStr.new [] = none ∧ NonEmptyString.new [] = none ∧
    (∀ s : RStr, NonEmptyStr.new s = none ↔ s = []) ∧
    (∀ s : RStr, NonEmptyString.new s = none ↔ s = []) := by
  refine ⟨rfl, rfl, ?_, ?_⟩ <;> intro s <;> cases s <;>
    simp [NonEmptyStr.new, NonEmptyString.new]

/-- C3 counterexample: on empty input, neither unchecked constructor fails
with the message the claim states, "tried to create a non-empty string from
an empty source"; the actual messages differ. -/
theorem C3_counterexample :
    NonEmptyStr.new_unchecked_dbg [] ≠
      Except.error "tried to create a non-empty string from an empty source" ∧
    NonEmptyString.new_unchecked_dbg [] ≠
      Except.error "tried to create a non-empty string from an empty source" := by
  refine ⟨?_, ?_⟩ <;>
    simp [NonEmptyStr.new_unchecked_dbg, NonEmptyString.new_unchecked_dbg]

/-- C3 amended: in a debug build, `NonEmptyStr::new_unchecked("")` fails the
assertion with message "tried to create a non-empty string slice from an
empty string" and `NonEmptyString::new_unchecked("")` with "tried to create
a non-empty string from an empty string"; on any non-empty input the
unchecked constructor succeeds and returns exactly the value the validating
constructor returns. -/
theorem C3_unchecked_behaviour (s : RStr) (h : s ≠ []) :
    NonEmptyStr.new_unchecked_dbg [] =
      Except.error "tried to create a non-empty string slice from an empty string" ∧
    NonEmptyString.new_unchecked_dbg [] =
      Except.error "tried to create a non-empty string from an empty string" ∧
    NonEmptyStr.new_unchecked_dbg s = Except.ok (NonEmptyStr.new_unchecked s) ∧
    NonEmptyStr.new s = some (NonEmptyStr.new_unchecked s) ∧
    NonEmptyString.new_unchecked_dbg s = Except.ok (NonEmptyString.new_unchecked s) ∧
    NonEmptyString.new s = some (NonEmptyString.new_unchecked s) := by
  have h' : s.isEmpty = false := by
    cases s with
    | nil => exact absurd rfl h
    | cons b rest => rfl
  refine ⟨rfl, rfl, ?_, ?_, ?_, ?_⟩ <;>
    simp [NonEmptyStr.new_unchecked_dbg, NonEmptyString.new_unchecked_dbg,
      NonEmptyStr.new, NonEmptyString.new, NonEmptyString.new_unchecked, h']

theorem C3_witness :
    fooBytes ≠ [] ∧
    NonEmptyStr.new_unchecked_dbg fooBytes =
      Except.ok (NonEmptyStr.new_unchecked fooBytes) ∧
    NonEmptyStr.new fooBytes = some (NonEmptyStr.new_unchecked fooBytes) :=
  ⟨by decide, (C3_unchecked_behaviour fooBytes (by decide)).2.2.1,
    (C3_unchecked_behaviour fooBytes (by decide)).2.2.2.1⟩

/-- C4: `str_hash_fnv1a` is the left fold of the update
`hash = (hash XOR byte) * 0x01000193 mod 2^32` over the input bytes,
starting from seed `0x811c9dc5`; on `""` it returns the seed, and on
`"foo"` the canonical published FNV-1a 32-bit value `0xa9f37ed7`. -/
theorem C4_fnv1a32 :
    (∀ s : RStr, Hash.str_hash_fnv1a s = s.foldl Hash.fnv1a32SpecStep 0x811c9dc5) ∧
    Hash.str_hash_fnv1a [] = 0x811c9dc5 ∧
    Hash.str_hash_fnv1a fooBytes = 0xa9f37ed7 :=
  ⟨fun s => Hash.fnv1a32_loop_eq_foldl Hash.FNV1A32_SEED s, rfl, by decide⟩

/-- C5: `str_hash_fnv1a_64` is the left fold of the update
`hash = (hash XOR byte) * 0x00000100000001B3 mod 2^64` over the input bytes,
starting from seed `0xcbf29ce484222325`; on `""` it returns the seed, and on
`"foo"` the published FNV-1a 64-bit value `0xdcb27518fed9d577`. -/
theorem C5_fnv1a64 :
    (∀ s : RStr, Hash.str_hash_fnv1a_64 s = s.foldl Hash.fnv1a64SpecStep 0xcbf29ce484222325) ∧
    Hash.str_hash_fnv1a_64 [] = 0xcbf29ce484222325 ∧
    Hash.str_hash_fnv1a_64 fooBytes = 0xdcb27518fed9d577 :=
  ⟨fun s => Hash.fnv1a64_loop_eq_foldl Hash.FNV1A64_SEED s, rfl, by decide⟩

/-- C6: owned → borrowed → owned round-trips to an equal value, and
borrowed → owned → borrowed preserves the text. -/
theorem C6_roundtrip :
    (∀ x : NonEmptyString, NonEmptyString.from_ne_str x.as_ne_str = x) ∧
    (∀ v : NonEmptyStr, (NonEmptyString.from_ne_str v).as_ne_str = v) ∧
    (∀ v : NonEmptyStr, (NonEmptyString.from_ne_str v).as_str = v.as_str) :=
  ⟨fun _ => rfl, fun _ => rfl, fun _ => rfl⟩

/-- C7: every equality impl across the four representations (non-empty
slice, non-empty owned, plain slice, plain owned) returns exactly byte
equality of the underlying text, the derived orderings are exactly the
lexicographic byte comparison of the underlying text, and equality is
reflexive, symmetric and consistent across representations. -/
theorem C7_comparison_matrix :
    (∀ a b : NonEmptyStr, NonEmptyStr.eq a b = (a.as_str == b.as_str)) ∧
    (∀ a b : NonEmptyStr, NonEmptyStr.cmp a b = str_cmp a.as_str b.as_str) ∧
    (∀ (a : NonEmptyStr) (s : RStr), NonEmptyStr.eq_str a s = (a.as_str == s)) ∧
    (∀ (a : NonEmptyStr) (s : RStr), str_eq_ne_str s a = (s == a.as_str)) ∧
    (∀ (a : NonEmptyStr) (s : RStr), NonEmptyStr.eq_string a s = (a.as_str == s)) ∧
    (∀ (a : NonEmptyStr) (s : RStr), string_eq_ne_str s a = (s == a.as_str)) ∧
    (∀ (a : NonEmptyStr) (x : NonEmptyString),
      NonEmptyStr.eq_ne_string a x = (a.as_str == x.as_str)) ∧
    (∀ x y : NonEmptyString, NonEmptyString.eq x y = (x.as_str == y.as_str)) ∧
    (∀ x y : NonEmptyString, NonEmptyString.cmp x y = str_cmp x.as_str y.as_str) ∧
    (∀ (x : NonEmptyString) (s : RStr), NonEmptyString.eq_str x s = (x.as_str == s)) ∧
    (∀ (x : NonEmptyString) (s : RStr), str_eq_ne_string s x = (s == x.as_str)) ∧
    (∀ (x : NonEmptyString) (s : RStr), NonEmptyString.eq_string x s = (x.as_str == s)) ∧
    (∀ (x : NonEmptyString) (s : RStr), string_eq_ne_string s x = (s == x.as_str)) ∧
    (∀ (x : NonEmptyString) (a : NonEmptyStr),
      NonEmptyString.eq_ne_str x a = (x.as_str == a.as_str)) ∧
    (∀ s t : RStr, (s == t) = decide (s = t)) ∧
    (∀ s t : RStr, (s == t) = (t == s)) ∧
    (∀ a : NonEmptyStr, NonEmptyStr.eq a a = true) ∧
    (∀ x : NonEmptyString, NonEmptyString.eq x x = true) ∧
    (∀ (a : NonEmptyStr) (s : RStr), NonEmptyStr.eq_str a s = str_eq_ne_str s a) ∧
    (∀ (x : NonEmptyString) (s : RStr), NonEmptyString.eq_str x s = str_eq_ne_string s x) ∧
    (∀ (a : NonEmptyStr) (x : NonEmptyString),
      NonEmptyStr.eq_ne_string a x = NonEmptyString.eq_ne_str x a) := by
  refine ⟨fun a b => rfl, fun a b => rfl, fun a s => rfl, fun s a => rfl, fun a s => rfl,
    fun s a => rfl, fun a x => rfl, fun x y => rfl, fun x y => rfl, fun x s => rfl,
    fun s x => rfl, fun x s => rfl, fun s x => rfl, fun x a => rfl, ?_, ?_, ?_, ?_,
    ?_, ?_, ?_⟩
  · intro s t
    by_cases h : s = t <;> simp [h]
  · intro s t
    by_cases h : s = t
    · simp [h]
    · simp [h, Ne.symm h]
  · intro a
    simp [NonEmptyStr.eq]
  · intro x
    simp [NonEmptyString.eq]
  · intro a s
    by_cases h : a.as_str = s
    · simp [NonEmptyStr.eq_str, str_eq_ne_str, h]
    · simp [NonEmptyStr.eq_str, str_eq_ne_str, h, Ne.symm h]
  · intro x s
    by_cases h : x.as_str = s
    · simp [NonEmptyString.eq_str, str_eq_ne_string, h]
    · simp [NonEmptyString.eq_str, str_eq_ne_string, h, Ne.symm h]
  · intro a x
    by_cases h : a.toRStr = x.toRStr
    · simp [NonEmptyStr.eq_ne_string, NonEmptyString.eq_ne_str, NonEmptyStr.eq,
        NonEmptyString.as_ne_str, NonEmptyStr.new_unchecked, h]
    · simp [NonEmptyStr.eq_ne_string, NonEmptyString.eq_ne_str, NonEmptyStr.eq,
        NonEmptyString.as_ne_str, NonEmptyStr.new_unchecked, h, Ne.symm h]

/-- C8: on any value produced by the validating constructor, `len_nonzero`'s
inner `NonZeroUsize::new` succeeds (the unchecked unwrap never takes its
failure branch), and the returned positive value equals the byte length of
`as_str`. -/
theorem C8_len_nonzero (s : RStr) :
    (∀ v : NonEmptyStr, NonEmptyStr.new s = some v →
      ∃ p : { m : Nat // 0 < m }, v.len_nonzero_checked = some p ∧ p.1 = v.as_str.length) ∧
    (∀ x : NonEmptyString, NonEmptyString.new s = some x →
      ∃ p : { m : Nat // 0 < m }, x.len_nonzero_checked = some p ∧ p.1 = x.as_str.length) := by
  cases s with
  | nil =>
      refine ⟨fun v hv => ?_, fun x hx => ?_⟩
      · simp [NonEmptyStr.new] at hv
      · simp [NonEmptyString.new] at hx
  | cons b rest =>
      refine ⟨fun v hv => ?_, fun x hx => ?_⟩
      · simp [NonEmptyStr.new, NonEmptyStr.new_unchecked] at hv
        exact ⟨⟨rest.length + 1, Nat.succ_pos _⟩,
          by simp [← hv, NonEmptyStr.len_nonzero_checked, NonZeroUsize.new], by simp [← hv,
            NonEmptyStr.as_str]⟩
      · simp [NonEmptyString.new] at hx
        exact ⟨⟨rest.length + 1, Nat.succ_pos _⟩,
          by simp [← hx, NonEmptyString.len_nonzero_checked, NonZeroUsize.new], by simp [← hx,
            NonEmptyString.as_str]⟩

theorem C8_witness :
    ∃ p : { m : Nat // 0 < m },
      (NonEmptyStr.mk fooBytes).len_nonzero_checked = some p ∧
      p.1 = (NonEmptyStr.mk fooBytes).as_str.length :=
  (C8_len_nonzero fooBytes).1 (NonEmptyStr.mk fooBytes) rfl

/-- C9: every wrapper value reachable through the safe public API has
underlying text of length at least 1. -/
theorem C9_safe_api_invariant (e : NonEmptyStr ⊕ NonEmptyString) (h : SafeReachable e) :
    1 ≤ (underlyingText e).length := by
  induction h with
  | str_new s v hv =>
      cases s with
      | nil => simp [NonEmptyStr.new] at hv
      | cons b rest =>
          simp [NonEmptyStr.new, NonEmptyStr.new_unchecked] at hv
          simp [underlyingText, ← hv, NonEmptyStr.as_str]
  | string_new s x hx =>
      cases s with
      | nil => simp [NonEmptyString.new] at hx
      | cons b rest =>
          simp [NonEmptyString.new] at hx
          simp [underlyingText, ← hx, NonEmptyString.as_str]
  | as_ne_str x _ ih => exact ih
  | from_ne_str v _ ih => exact ih
  | to_owned v _ ih => exact ih
  | clone x _ ih => exact ih

theorem C9_witness : 1 ≤ (underlyingText (Sum.inl (NonEmptyStr.mk fooBytes))).length :=
  C9_safe_api_invariant (Sum.inl (NonEmptyStr.mk fooBytes))
    (SafeReachable.str_new fooBytes (NonEmptyStr.mk fooBytes) rfl)

/-- C10: both FNV-1a hashes are compositional over concatenation — hashing
`s ++ t` equals resuming the per-byte loop on `t` from the hash of `s`. -/
theorem C10_hash_concat :
    (∀ s t : RStr,
      Hash.str_hash_fnv1a (s ++ t) = Hash.fnv1a32_loop (Hash.str_hash_fnv1a s) t) ∧
    (∀ s t : RStr,
      Hash.str_hash_fnv1a_64 (s ++ t) = Hash.fnv1a64_loop (Hash.str_hash_fnv1a_64 s) t) :=
  ⟨fun s t => Hash.fnv1a32_loop_append Hash.FNV1A32_SEED s t,
   fun s t => Hash.fnv1a64_loop_append Hash.FNV1A64_SEED s t⟩

